import Mathlib

/-!
# Workout metrics calculator (`main.go`)

A shallow embedding of the training calculator: the base `Training` record, the
three variants `Running`, `Walking` and `Swimming`, and the formulas for
distance, mean speed and calories.

Conventions of the embedding.

* The program is embedded twice.  In the first embedding `float64` values are
  exact rationals (`ℚ`): every formula is evaluated without rounding, and only
  finite values exist.  It carries the statements about the shape of the
  formulas, the guards and the dispatch.  All divisions of the program whose
  divisor can be zero sit behind an explicit guard in the source; the guards
  are embedded as they are written.
* In the second embedding (namespace `IEEE`) `float64` values are IEEE 754
  binary64 values (`F64`): NaN, the two infinities, the two zeros and the finite
  values, every operation rounded to nearest, ties to even, with overflow to
  infinity and gradual underflow, one rounding per operation (no fused
  multiply-add).  It carries the statements that depend on rounding, overflow,
  NaN or the printing of floats.
* `int` is the 64-bit signed machine integer.  The only integer operation of
  the program that can overflow is the product in `Swimming.distance`; it is
  wrapped modulo `2^64` by `wrapInt64`.
* `time.Duration` is an integer count of nanoseconds; `Duration.Hours` follows
  the standard library (whole hours plus the remaining nanoseconds).
-/

namespace Fitness

/-! ## Machine integers and durations -/

/-- Two's-complement wrap of an integer into the signed 64-bit range. -/
def wrapInt64 (x : Int) : Int := (x + 2 ^ 63) % 2 ^ 64 - 2 ^ 63

namespace time

/-- Go's `time.Duration`: a count of nanoseconds. -/
abbrev Duration := Int

/-- One minute, `time.Minute`, in nanoseconds. -/
def Minute : Duration := 60000000000

/-- One hour, `time.Hour`, in nanoseconds. -/
def Hour : Duration := 3600000000000

/-- The standard library's `Duration.Hours`: `hour := d / Hour`,
`nsec := d % Hour` (truncated division), result
`float64(hour) + float64(nsec)/(60*60*1e9)`. -/
def Duration.Hours (d : Duration) : ℚ :=
  ((Int.tdiv d Hour : Int) : ℚ) + ((Int.tmod d Hour : Int) : ℚ) / (60 * 60 * 1000000000)

/-- The standard library's `Duration.Minutes`, built like `Duration.Hours`. -/
def Duration.Minutes (d : Duration) : ℚ :=
  ((Int.tdiv d Minute : Int) : ℚ) + ((Int.tmod d Minute : Int) : ℚ) / (60 * 1000000000)

end time

/-! ## Constants -/

/-- Average step length, in metres. -/
def LenStep : ℚ := 0.65
/-- Metres in a kilometre. -/
def MInKm : ℚ := 1000
/-- Minutes in an hour. -/
def MinsInHour : ℚ := 60
/-- Factor converting km/h to m/s. -/
def KmHInMsec : ℚ := 0.278
/-- Centimetres in a metre. -/
def CmInM : ℚ := 100
/-- Multiplier of the mean speed (running). -/
def CaloriesMeanSpeedMultiplier : ℚ := 18
/-- Shift of the mean speed (running). -/
def CaloriesMeanSpeedShift : ℚ := 1.79
/-- Weight coefficient (walking). -/
def CaloriesWeightMultiplier : ℚ := 0.035
/-- Height coefficient (walking). -/
def CaloriesSpeedHeightMultiplier : ℚ := 0.029
/-- Length of one stroke, in metres. -/
def SwimmingLenStep : ℚ := 1.38
/-- Shift of the mean speed (swimming). -/
def SwimmingCaloriesMeanSpeedShift : ℚ := 1.1
/-- Multiplier of the user's weight (swimming). -/
def SwimmingCaloriesWeightMultiplier : ℚ := 2

/-! ## Data model -/

/-- The common record of all workouts. -/
structure Training where
  TrainingType : String
  Action : Int
  LenStep : ℚ
  Duration : time.Duration
  Weight : ℚ

/-- The report about a workout. -/
structure InfoMessage where
  TrainingType : String
  Duration : time.Duration
  Distance : ℚ
  Speed : ℚ
  Calories : ℚ

/-- Running: the base record, nothing else. -/
structure Running extends Training

/-- Walking: the base record and the user's height. -/
structure Walking extends Training where
  Height : ℚ

/-- Swimming: the base record, the pool length and the number of crossings. -/
structure Swimming extends Training where
  LengthPool : Int
  CountPool : Int

/-! ## Base record -/

/-- `Training.distance`: `float64(t.Action) * t.LenStep / MInKm`. -/
def Training.distance (t : Training) : ℚ :=
  (t.Action : ℚ) * t.LenStep / MInKm

/-- `Training.meanSpeed`: zero for a zero duration, else distance over hours. -/
def Training.meanSpeed (t : Training) : ℚ :=
  if t.Duration = 0 then 0
  else t.distance / time.Duration.Hours t.Duration

/-- `Training.Calories`: the base record burns nothing. -/
def Training.Calories (_t : Training) : ℚ := 0

/-- `Training.TrainingInfo`: the report of the base record. -/
def Training.TrainingInfo (t : Training) : InfoMessage :=
  { TrainingType := t.TrainingType
    Duration := t.Duration
    Distance := t.distance
    Speed := t.meanSpeed
    Calories := t.Calories }

/-! ## Running -/

/-- `Running.Calories`. The mean speed is the one promoted from `Training`. -/
def Running.Calories (r : Running) : ℚ :=
  let averageSpeed := r.toTraining.meanSpeed
  if r.Duration = 0 then 0
  else (CaloriesMeanSpeedMultiplier * averageSpeed + CaloriesMeanSpeedShift) *
    r.Weight / MInKm * time.Duration.Hours r.Duration * MinsInHour

/-- `Running.TrainingInfo`: delegates to the embedded `Training`. -/
def Running.TrainingInfo (r : Running) : InfoMessage :=
  r.toTraining.TrainingInfo

/-! ## Walking -/

/-- `Walking.Calories`. The division chain `x / w.Height / CmInM` associates to
the left, as in the source. -/
def Walking.Calories (w : Walking) : ℚ :=
  let averageSpeed := w.toTraining.meanSpeed * KmHInMsec
  if w.Height = 0 then 0
  else ((CaloriesWeightMultiplier * w.Weight + (averageSpeed ^ 2) /
    w.Height / CmInM) * CaloriesSpeedHeightMultiplier * w.Weight) *
    time.Duration.Hours w.Duration * MinsInHour

/-- `Walking.TrainingInfo`: delegates to the embedded `Training`. -/
def Walking.TrainingInfo (w : Walking) : InfoMessage :=
  w.toTraining.TrainingInfo

/-! ## Swimming -/

/-- `Swimming.distance`: the product is taken in machine integers, then
converted and divided by `MInKm`. -/
def Swimming.distance (s : Swimming) : ℚ :=
  ((wrapInt64 (s.LengthPool * s.CountPool) : Int) : ℚ) / MInKm

/-- `Swimming.meanSpeed`: as the base one, over the swimming distance. -/
def Swimming.meanSpeed (s : Swimming) : ℚ :=
  if s.Duration = 0 then 0
  else s.distance / time.Duration.Hours s.Duration

/-- `Swimming.Calories`. -/
def Swimming.Calories (s : Swimming) : ℚ :=
  let averageSpeed := s.meanSpeed
  (averageSpeed + SwimmingCaloriesMeanSpeedShift) *
    SwimmingCaloriesWeightMultiplier * s.Weight * time.Duration.Hours s.Duration

/-- `Swimming.TrainingInfo`: built from the swimming methods. -/
def Swimming.TrainingInfo (s : Swimming) : InfoMessage :=
  { TrainingType := s.TrainingType
    Duration := s.Duration
    Distance := s.distance
    Speed := s.meanSpeed
    Calories := s.Calories }

/-! ## The sample records of `main` -/

/-- The swimming record of `main`. -/
def swimmingSample : Swimming :=
  { TrainingType := "Плавание"
    Action := 2000
    LenStep := SwimmingLenStep
    Duration := 90 * time.Minute
    Weight := 85
    LengthPool := 50
    CountPool := 5 }

/-- The walking record of `main`. -/
def walkingSample : Walking :=
  { TrainingType := "Ходьба"
    Action := 20000
    LenStep := LenStep
    Duration := 3 * time.Hour + 45 * time.Minute
    Weight := 85
    Height := 185 }

/-- The running record of `main`. -/
def runningSample : Running :=
  { TrainingType := "Бег"
    Action := 5000
    LenStep := LenStep
    Duration := 30 * time.Minute
    Weight := 85 }

/-! ## Auxiliary definitions used by the statements -/

/-- The walking formula as the specification words it: the speed in m/s is the
mean speed times 0.278, the height in metres is the height divided by 100. -/
def Walking.CaloriesSpec (w : Walking) : ℚ :=
  let v := w.toTraining.meanSpeed * 0.278
  let height_m := w.Height / 100
  ((0.035 * w.Weight) + (v ^ 2 / height_m)) * 0.029 * w.Weight *
    time.Duration.Hours w.Duration * 60

/-- Division that reports a zero divisor: `none` when it is evaluated at a zero
divisor, the quotient otherwise. -/
def divChecked (a b : ℚ) : Option ℚ :=
  if b = 0 then none else some (a / b)

/-- `Training.distance`, every division reported. -/
def Training.distanceChecked (t : Training) : Option ℚ :=
  divChecked ((t.Action : ℚ) * t.LenStep) MInKm

/-- `Training.meanSpeed`, every division reported. -/
def Training.meanSpeedChecked (t : Training) : Option ℚ :=
  if t.Duration = 0 then some 0
  else do
    let d ← t.distanceChecked
    divChecked d (time.Duration.Hours t.Duration)

/-- `Walking.Calories`, every division reported, in the order of evaluation of
the source: mean speed first, then the height guard, then the two divisions of
the return expression. -/
def Walking.CaloriesChecked (w : Walking) : Option ℚ := do
  let averageSpeed := (← w.toTraining.meanSpeedChecked) * KmHInMsec
  if w.Height = 0 then
    pure 0
  else do
    let q ← divChecked (averageSpeed ^ 2) w.Height
    let q ← divChecked q CmInM
    pure (((CaloriesWeightMultiplier * w.Weight + q) * CaloriesSpeedHeightMultiplier * w.Weight) *
      time.Duration.Hours w.Duration * MinsInHour)

/-! ## Report rendering

`InfoMessage.String` calls the standard library's `fmt.Sprintf` on the constant
`messageTemplate`.  The template uses three verbs.  `%s` copies a string.
`%.2f` prints a number with two decimals; it is embedded on exact rationals by
`fmtFixed2`.  `%v` prints a `float64` by its shortest decimal representation,
which only exists for binary floating-point values; it is not fixed by the
exact embedding and is taken there as a parameter `fmtV` of everything that
renders.  The binary64 embedding defines it (`F64.fmtV`). -/

/-- The message template of the report. -/
def messageTemplate : String :=
  "Тип тренировки: %s\nДлительность: %v мин\nДистанция: %.2f км.\nСр. скорость: %.2f км/ч\nПотрачено ккал: %.2f\n"

/-- Rounding of a non-negative rational to the nearest integer, an exact tie
going to the even neighbour (the decimal rounding of `strconv`). -/
def roundHalfEven (x : ℚ) : Nat :=
  let a := x.num.natAbs
  let d := x.den
  let q := a / d
  let r := a % d
  if 2 * r < d then q
  else if d < 2 * r then q + 1
  else if q % 2 = 0 then q else q + 1

/-- The number of hundredths printed by `%.2f`: the magnitude times 100,
rounded. -/
def hundredths (x : ℚ) : Nat := roundHalfEven (|x| * 100)

/-- The verb `%.2f`: sign, integer part, a point and exactly two decimals. -/
def fmtFixed2 (x : ℚ) : String :=
  let n := hundredths x
  (if x < 0 then "-" else "") ++ Nat.repr (n / 100) ++ "." ++
    Nat.repr (n % 100 / 10) ++ Nat.repr (n % 10)

/-- An operand of `Sprintf`: a string or a `float64`. -/
inductive Arg where
  | str (s : String)
  | float (x : ℚ)

/-- The part of `fmt.Sprintf` that the template needs, on the characters of the
format: `%s` consumes a string operand, `%v` and `%.2f` consume a float operand,
every other character is copied.  Other verbs, flags and operand mismatches
are not modelled. -/
def sprintfChars (fmtV : ℚ → String) : List Char → List Arg → String
  | [], _ => ""
  | '%' :: 's' :: rest, Arg.str s :: args => s ++ sprintfChars fmtV rest args
  | '%' :: 'v' :: rest, Arg.float x :: args => fmtV x ++ sprintfChars fmtV rest args
  | '%' :: '.' :: '2' :: 'f' :: rest, Arg.float x :: args =>
      fmtFixed2 x ++ sprintfChars fmtV rest args
  | c :: rest, args => String.singleton c ++ sprintfChars fmtV rest args

/-- `fmt.Sprintf` on a format string. -/
def Sprintf (fmtV : ℚ → String) (format : String) (args : List Arg) : String :=
  sprintfChars fmtV format.data args

/-- `InfoMessage.String`: the template filled with the type, the duration in
minutes, the distance, the speed and the calories. -/
def InfoMessage.String (fmtV : ℚ → String) (i : InfoMessage) : String :=
  Sprintf fmtV messageTemplate
    [Arg.str i.TrainingType,
     Arg.float (time.Duration.Minutes i.Duration),
     Arg.float i.Distance,
     Arg.float i.Speed,
     Arg.float i.Calories]

/-- The interface `CaloriesCalculator`, "for the structures Running, Walking and
Swimming": a value of the interface is a record of one of the three variants. -/
inductive CaloriesCalculator where
  | running (r : Running)
  | walking (w : Walking)
  | swimming (s : Swimming)

/-- Dynamic dispatch of `Calories()`. -/
def CaloriesCalculator.Calories : CaloriesCalculator → ℚ
  | .running r => r.Calories
  | .walking w => w.Calories
  | .swimming s => s.Calories

/-- Dynamic dispatch of `TrainingInfo()`. -/
def CaloriesCalculator.TrainingInfo : CaloriesCalculator → InfoMessage
  | .running r => r.TrainingInfo
  | .walking w => w.TrainingInfo
  | .swimming s => s.TrainingInfo

/-- `ReadData`: the report of the training, its calories replaced by the
interface's `Calories()`, printed by `fmt.Sprint`, which calls the report's
`String()`. -/
def ReadData (fmtV : ℚ → String) (training : CaloriesCalculator) : String :=
  let info := training.TrainingInfo
  let info := { info with Calories := training.Calories }
  InfoMessage.String fmtV info

/-! ## Binary64 arithmetic

The IEEE 754 binary64 format, as Go's `float64`: round to nearest, ties to
even, 53 significant bits, least exponent `-1074`, overflow at `2^1024`. -/

/-- A `float64` value: NaN, an infinity with its sign, the negative zero, or a
finite value.  `fin 0` is the positive zero; the rational of `fin` is a value of
the binary64 grid, which every operation below produces. -/
inductive F64 where
  | nan
  | inf (neg : Bool)
  | negZero
  | fin (q : ℚ)
deriving DecidableEq

namespace F64

/-- Floor of the binary logarithm of `a / b`, for positive `a` and `b`: the
difference of the bit lengths, less one when the quotient is below that power. -/
def floorLog2 (a b : Nat) : Int :=
  let k : Int := ((Nat.toDigits 2 a).length : Int) - ((Nat.toDigits 2 b).length : Int)
  if b * 2 ^ k.toNat ≤ a * 2 ^ (-k).toNat then k else k - 1

/-- The power `2^e` for an integer exponent. -/
def twoPow (e : Int) : ℚ :=
  if 0 ≤ e then ((2 ^ e.toNat : Nat) : ℚ) else 1 / ((2 ^ (-e).toNat : Nat) : ℚ)

/-- Rounding of a positive rational to the nearest multiple of `2^q`, ties to
the even multiple. -/
def roundAt (q : Int) (r : ℚ) : ℚ :=
  (roundHalfEven (r / twoPow q) : ℚ) * twoPow q

/-- Rounding of a positive rational to 53 significant bits, the exponent not
bounded. -/
def round53 (r : ℚ) : ℚ :=
  roundAt (floorLog2 r.num.natAbs r.den - 52) r

/-- Rounding of a positive rational to the binary64 grid: 53 significant bits,
and multiples of `2^(-1074)` in the subnormal range. -/
def roundMag (r : ℚ) : ℚ :=
  roundAt (max (floorLog2 r.num.natAbs r.den - 52) (-1074)) r

/-- The zero of the given sign. -/
def zero (neg : Bool) : F64 := if neg then negZero else fin 0

/-- The binary64 value of a real result: zero gives the positive zero, a
magnitude that rounds to `2^1024` or more overflows to the infinity of its
sign, a magnitude that rounds to zero gives the zero of its sign. -/
def round64 (r : ℚ) : F64 :=
  if r = 0 then fin 0
  else
    let m := roundMag |r|
    if twoPow 1024 ≤ m then inf (decide (r < 0))
    else if m = 0 then zero (decide (r < 0))
    else fin (if r < 0 then -m else m)

/-- The sign bit (`math.Signbit`); NaN is taken as unsigned. -/
def signbit : F64 → Bool
  | nan => false
  | inf neg => neg
  | negZero => true
  | fin q => decide (q < 0)

/-- The comparison `x == 0`: true of both zeros. -/
def isZero : F64 → Bool
  | negZero => true
  | fin q => decide (q = 0)
  | _ => false

/-- The comparison `x >= 0`: false of NaN, true of both zeros. -/
def nonneg : F64 → Bool
  | nan => false
  | inf neg => !neg
  | negZero => true
  | fin q => decide (0 ≤ q)

/-- The real value of a finite `float64` (zero for the others). -/
def val : F64 → ℚ
  | fin q => q
  | _ => 0

/-- The product `x * y`. -/
def mul : F64 → F64 → F64
  | nan, _ => nan
  | _, nan => nan
  | inf a, y => if y.isZero then nan else inf (xor a y.signbit)
  | x, inf b => if x.isZero then nan else inf (xor x.signbit b)
  | x, y =>
    if x.val * y.val = 0 then zero (xor x.signbit y.signbit) else round64 (x.val * y.val)

/-- The quotient `x / y`. -/
def div : F64 → F64 → F64
  | nan, _ => nan
  | _, nan => nan
  | inf _, inf _ => nan
  | inf a, y => inf (xor a y.signbit)
  | x, inf b => zero (xor x.signbit b)
  | x, y =>
    if y.isZero then (if x.isZero then nan else inf (xor x.signbit y.signbit))
    else if x.val = 0 then zero (xor x.signbit y.signbit)
    else round64 (x.val / y.val)

/-- The sum `x + y`. -/
def add : F64 → F64 → F64
  | nan, _ => nan
  | _, nan => nan
  | inf a, inf b => if a = b then inf a else nan
  | inf a, _ => inf a
  | _, inf b => inf b
  | x, y =>
    if x.val + y.val = 0 then zero (x.signbit && y.signbit) else round64 (x.val + y.val)

instance : Add F64 := ⟨add⟩
instance : Mul F64 := ⟨mul⟩
instance : Div F64 := ⟨div⟩

/-- The conversion `float64(n)` of an integer. -/
def ofInt (n : Int) : F64 := round64 (n : ℚ)

/-- The `float64` of a numeric constant of the source. -/
def lit (q : ℚ) : F64 := round64 q

/-- The call `math.Pow(x, 2)` of the portable library: NaN for NaN, `+Inf` for an
infinity, `+0` for a zero, 1 for 1; otherwise the mantissa is squared and
rounded to 53 bits, and `Ldexp` rounds the scaled result to the grid. -/
def powTwo : F64 → F64
  | nan => nan
  | inf _ => inf false
  | negZero => fin 0
  | fin q => if q = 0 then fin 0 else if q = 1 then fin 1 else round64 (round53 (q * q))

/-! ### Printing -/

/-- Floor of the decimal logarithm of `a / b`, for positive `a` and `b`. -/
def floorLog10 (a b : Nat) : Int :=
  let k : Int := ((Nat.toDigits 10 a).length : Int) - ((Nat.toDigits 10 b).length : Int)
  if b * 10 ^ k.toNat ≤ a * 10 ^ (-k).toNat then k else k - 1

/-- The power `10^e` for an integer exponent. -/
def tenPow (e : Int) : ℚ :=
  if 0 ≤ e then ((10 ^ e.toNat : Nat) : ℚ) else 1 / ((10 ^ (-e).toNat : Nat) : ℚ)

/-- The decimal with `n` significant digits that reads back as the positive
value `x` and is nearest to it, if there is one: its digits as a number and its
power of ten.  `k` is the floor of the decimal logarithm of `x`. -/
def shortestAt (x : ℚ) (k : Int) (n : Nat) : Option (Nat × Int) :=
  let p : Int := k + 1 - n
  let y := x / tenPow p
  let lo := y.floor.toNat
  let hi := lo + 1
  let okLo := decide (round64 (lo * tenPow p) = fin x)
  let okHi := decide (round64 (hi * tenPow p) = fin x)
  if okLo && okHi then
    (if y - lo < hi - y then some (lo, p)
     else if hi - y < y - lo then some (hi, p)
     else if lo % 2 = 0 then some (lo, p) else some (hi, p))
  else if okLo then some (lo, p)
  else if okHi then some (hi, p)
  else none

/-- The first success of `shortestAt` from `n` digits on; 17 digits always read
back. -/
def shortestFrom (x : ℚ) (k : Int) : Nat → Nat → Nat × Int
  | 0, n => ((x / tenPow (k + 1 - n)).floor.toNat, k + 1 - n)
  | fuel + 1, n =>
    match shortestAt x k n with
    | some r => r
    | none => shortestFrom x k fuel (n + 1)

/-- Removal of the trailing zeros of a digit string given as a number. -/
def stripZeros : Nat → Nat → Int → Nat × Int
  | 0, d, p => (d, p)
  | fuel + 1, d, p =>
    if d % 10 = 0 ∧ d ≠ 0 then stripZeros fuel (d / 10) (p + 1) else (d, p)

/-- The shortest decimal digits that identify the positive value `x` among the
`float64` values, and the position `dp` of the decimal point: the value reads
`0.d₁d₂… × 10^dp` (`strconv`'s shortest formatting). -/
def shortest (x : ℚ) : List Char × Int :=
  let k := floorLog10 x.num.natAbs x.den
  let r := shortestFrom x k 17 1
  let r := stripZeros 18 r.1 r.2
  let ds := Nat.toDigits 10 r.1
  (ds, (ds.length : Int) + r.2)

/-- The layout `%e` of `strconv`: `d.ddd`, `e`, the sign of the exponent and at
least two exponent digits. -/
def fmtE (ds : List Char) (dp : Int) : String :=
  let exp := dp - 1
  let e := exp.natAbs
  String.mk ([ds.headD '0'] ++ (if ds.length > 1 then '.' :: ds.tail else []) ++
    ['e', if exp < 0 then '-' else '+'] ++ (if e < 10 then ['0'] else []) ++ Nat.toDigits 10 e)

/-- The layout `%f` of `strconv` with as many decimals as the digits need. -/
def fmtF (ds : List Char) (dp : Int) : String :=
  let intPart := if 0 < dp then (List.range dp.toNat).map (fun i => ds.getD i '0') else ['0']
  let prec := ((ds.length : Int) - dp).toNat
  let frac := (List.range prec).map
    (fun i => if 0 ≤ dp + (i : Int) then ds.getD (dp + (i : Int)).toNat '0' else '0')
  String.mk (intPart ++ (if prec > 0 then '.' :: frac else []))

/-- The layout `%g` with the shortest digits: `%e` when the decimal exponent is
below `-4` or at least 6, the bounds of `strconv` for the shortest formatting,
and `%f` otherwise. -/
def fmtG (x : ℚ) : String :=
  let ds := (shortest x).1
  let dp := (shortest x).2
  if dp - 1 < -4 ∨ 6 ≤ dp - 1 then fmtE ds dp else fmtF ds dp

/-- The verb `%v` on a `float64` (`%g` with the shortest digits). -/
def fmtV : F64 → String
  | nan => "NaN"
  | inf neg => if neg then "-Inf" else "+Inf"
  | negZero => "-0"
  | fin q => if q = 0 then "0" else (if q < 0 then "-" else "") ++ fmtG |q|

/-- The verb `%.2f` on a `float64`: NaN and the infinities are printed by name,
a finite value by its sign, its integer part and two decimals. -/
def fmtF2 : F64 → String
  | nan => "NaN"
  | inf neg => if neg then "-Inf" else "+Inf"
  | negZero => "-0.00"
  | fin q => fmtFixed2 q

end F64

/-! ## The program over binary64 -/

namespace IEEE

/-- `Duration.Hours` of the standard library. -/
def Duration.Hours (d : time.Duration) : F64 :=
  F64.ofInt (Int.tdiv d time.Hour) + F64.ofInt (Int.tmod d time.Hour) / F64.lit 3600000000000

/-- `Duration.Minutes` of the standard library. -/
def Duration.Minutes (d : time.Duration) : F64 :=
  F64.ofInt (Int.tdiv d time.Minute) + F64.ofInt (Int.tmod d time.Minute) / F64.lit 60000000000

/-- Average step length, in metres. -/
def LenStep : F64 := F64.lit 0.65
/-- Metres in a kilometre. -/
def MInKm : F64 := F64.lit 1000
/-- Minutes in an hour. -/
def MinsInHour : F64 := F64.lit 60
/-- Factor converting km/h to m/s. -/
def KmHInMsec : F64 := F64.lit 0.278
/-- Centimetres in a metre. -/
def CmInM : F64 := F64.lit 100
/-- Multiplier of the mean speed (running). -/
def CaloriesMeanSpeedMultiplier : F64 := F64.lit 18
/-- Shift of the mean speed (running). -/
def CaloriesMeanSpeedShift : F64 := F64.lit 1.79
/-- Weight coefficient (walking). -/
def CaloriesWeightMultiplier : F64 := F64.lit 0.035
/-- Height coefficient (walking). -/
def CaloriesSpeedHeightMultiplier : F64 := F64.lit 0.029
/-- Length of one stroke, in metres. -/
def SwimmingLenStep : F64 := F64.lit 1.38
/-- Shift of the mean speed (swimming). -/
def SwimmingCaloriesMeanSpeedShift : F64 := F64.lit 1.1
/-- Multiplier of the user's weight (swimming). -/
def SwimmingCaloriesWeightMultiplier : F64 := F64.lit 2

/-- The common record of all workouts. -/
structure Training where
  TrainingType : String
  Action : Int
  LenStep : F64
  Duration : time.Duration
  Weight : F64

/-- The report about a workout. -/
structure InfoMessage where
  TrainingType : String
  Duration : time.Duration
  Distance : F64
  Speed : F64
  Calories : F64

/-- Running: the base record, nothing else. -/
structure Running extends Training

/-- Walking: the base record and the user's height. -/
structure Walking extends Training where
  Height : F64

/-- Swimming: the base record, the pool length and the number of crossings. -/
structure Swimming extends Training where
  LengthPool : Int
  CountPool : Int

/-- `Training.distance`: `float64(t.Action) * t.LenStep / MInKm`. -/
def Training.distance (t : Training) : F64 :=
  F64.ofInt t.Action * t.LenStep / MInKm

/-- `Training.meanSpeed`: zero for a zero duration, else distance over hours. -/
def Training.meanSpeed (t : Training) : F64 :=
  if t.Duration = 0 then F64.fin 0
  else t.distance / Duration.Hours t.Duration

/-- `Training.Calories`: the base record burns nothing. -/
def Training.Calories (_t : Training) : F64 := F64.fin 0

/-- `Training.TrainingInfo`: the report of the base record. -/
def Training.TrainingInfo (t : Training) : InfoMessage :=
  { TrainingType := t.TrainingType
    Duration := t.Duration
    Distance := t.distance
    Speed := t.meanSpeed
    Calories := t.Calories }

/-- `Running.Calories`. -/
def Running.Calories (r : Running) : F64 :=
  let averageSpeed := r.toTraining.meanSpeed
  if r.Duration = 0 then F64.fin 0
  else (CaloriesMeanSpeedMultiplier * averageSpeed + CaloriesMeanSpeedShift) *
    r.Weight / MInKm * Duration.Hours r.Duration * MinsInHour

/-- `Walking.Calories`. -/
def Walking.Calories (w : Walking) : F64 :=
  let averageSpeed := w.toTraining.meanSpeed * KmHInMsec
  if w.Height.isZero then F64.fin 0
  else ((CaloriesWeightMultiplier * w.Weight + (F64.powTwo averageSpeed) /
    w.Height / CmInM) * CaloriesSpeedHeightMultiplier * w.Weight) *
    Duration.Hours w.Duration * MinsInHour

/-- `Swimming.distance`: the product is taken in machine integers, then
converted and divided by `MInKm`. -/
def Swimming.distance (s : Swimming) : F64 :=
  F64.ofInt (wrapInt64 (s.LengthPool * s.CountPool)) / MInKm

/-- `Swimming.meanSpeed`: as the base one, over the swimming distance. -/
def Swimming.meanSpeed (s : Swimming) : F64 :=
  if s.Duration = 0 then F64.fin 0
  else s.distance / Duration.Hours s.Duration

/-- `Swimming.Calories`. -/
def Swimming.Calories (s : Swimming) : F64 :=
  let averageSpeed := s.meanSpeed
  (averageSpeed + SwimmingCaloriesMeanSpeedShift) *
    SwimmingCaloriesWeightMultiplier * s.Weight * Duration.Hours s.Duration

/-- `Swimming.TrainingInfo`: built from the swimming methods. -/
def Swimming.TrainingInfo (s : Swimming) : InfoMessage :=
  { TrainingType := s.TrainingType
    Duration := s.Duration
    Distance := s.distance
    Speed := s.meanSpeed
    Calories := s.Calories }

/-- An operand of `Sprintf`: a string or a `float64`. -/
inductive Arg where
  | str (s : String)
  | float (x : F64)

/-- The part of `fmt.Sprintf` that the template needs, on the characters of the
format: `%s` consumes a string operand, `%v` and `%.2f` consume a float operand,
every other character is copied.  Other verbs, flags and operand mismatches
are not modelled. -/
def sprintfChars : List Char → List Arg → String
  | [], _ => ""
  | '%' :: 's' :: rest, Arg.str s :: args => s ++ sprintfChars rest args
  | '%' :: 'v' :: rest, Arg.float x :: args => F64.fmtV x ++ sprintfChars rest args
  | '%' :: '.' :: '2' :: 'f' :: rest, Arg.float x :: args =>
      F64.fmtF2 x ++ sprintfChars rest args
  | c :: rest, args => String.singleton c ++ sprintfChars rest args

/-- `fmt.Sprintf` on a format string. -/
def Sprintf (format : String) (args : List Arg) : String :=
  sprintfChars format.data args

/-- `InfoMessage.String`: the template filled with the type, the duration in
minutes, the distance, the speed and the calories. -/
def InfoMessage.String (i : InfoMessage) : String :=
  Sprintf messageTemplate
    [Arg.str i.TrainingType,
     Arg.float (Duration.Minutes i.Duration),
     Arg.float i.Distance,
     Arg.float i.Speed,
     Arg.float i.Calories]

/-- The swimming record of `main`. -/
def swimmingSample : Swimming :=
  { TrainingType := "Плавание"
    Action := 2000
    LenStep := SwimmingLenStep
    Duration := 90 * time.Minute
    Weight := F64.lit 85
    LengthPool := 50
    CountPool := 5 }

/-- The walking record of `main`. -/
def walkingSample : Walking :=
  { TrainingType := "Ходьба"
    Action := 20000
    LenStep := LenStep
    Duration := 3 * time.Hour + 45 * time.Minute
    Weight := F64.lit 85
    Height := F64.lit 185 }

/-- The running record of `main`. -/
def runningSample : Running :=
  { TrainingType := "Бег"
    Action := 5000
    LenStep := LenStep
    Duration := 30 * time.Minute
    Weight := F64.lit 85 }

/-- The walking record of `main` with a zero duration and the weight `1e200`. -/
def walkingHeavyIdle : Walking :=
  { walkingSample with Duration := 0, Weight := F64.lit 1e200 }

/-- The swimming record of `main` with a zero duration and the weight `1e308`. -/
def swimmingHeavyIdle : Swimming :=
  { swimmingSample with Duration := 0, Weight := F64.lit 1e308 }

/-- The running record of `main` with a zero duration and the weight `1e200`. -/
def runningHeavyIdle : Running :=
  { runningSample with Duration := 0, Weight := F64.lit 1e200 }

/-- A running record with ten steps of `1e308` metres and the weight zero. -/
def runningHugeStep : Running :=
  { TrainingType := "Бег"
    Action := 10
    LenStep := F64.lit 1e308
    Duration := 30 * time.Minute
    Weight := F64.lit 0 }

/-- A running record with no step and an infinite step length. -/
def runningInfiniteStep : Running :=
  { TrainingType := "Бег"
    Action := 0
    LenStep := F64.inf false
    Duration := 30 * time.Minute
    Weight := F64.lit 85 }

/-- The report that the claim on rendering describes: label "Плавание",
90 minutes, distance 0.25, speed the `float64` of 1/6, calories 323. -/
def swimmingSampleInfo : InfoMessage :=
  { TrainingType := "Плавание"
    Duration := 90 * time.Minute
    Distance := F64.lit 0.25
    Speed := F64.lit (1 / 6)
    Calories := F64.lit 323 }

/-- The same report with NaN calories. -/
def nanCaloriesInfo : InfoMessage :=
  { swimmingSampleInfo with Calories := F64.nan }

end IEEE

/-! ## Lemmas on durations and machine integers -/

/-- `Duration.Hours` is the number of nanoseconds divided by the nanoseconds of
an hour. -/
theorem time.Duration.Hours_eq (d : time.Duration) :
    time.Duration.Hours d = (d : ℚ) / 3600000000000 := by
  unfold time.Duration.Hours
  have h : (Int.tdiv d time.Hour) * time.Hour + Int.tmod d time.Hour = d := by
    rw [mul_comm]; exact Int.tdiv_add_tmod d time.Hour
  have hq : ((Int.tdiv d time.Hour : Int) : ℚ) * 3600000000000
      + ((Int.tmod d time.Hour : Int) : ℚ) = (d : ℚ) := by
    have := congrArg (fun z : Int => (z : ℚ)) h
    simpa [time.Hour] using this
  rw [← hq]
  field_simp
  ring

/-- A non-zero duration lasts a non-zero number of hours. -/
theorem time.Duration.Hours_ne_zero {d : time.Duration} (h : d ≠ 0) :
    time.Duration.Hours d ≠ 0 := by
  rw [time.Duration.Hours_eq]
  have : (d : ℚ) ≠ 0 := by exact_mod_cast h
  positivity

/-- Within the signed 64-bit range the wrap is the identity. -/
theorem wrapInt64_of_fits {x : Int} (hlo : -2 ^ 63 ≤ x) (hhi : x < 2 ^ 63) :
    wrapInt64 x = x := by
  unfold wrapInt64
  rw [Int.emod_eq_of_lt (by omega) (by omega)]
  omega

/-- `Duration.Minutes` is the number of nanoseconds divided by the nanoseconds
of a minute. -/
theorem time.Duration.Minutes_eq (d : time.Duration) :
    time.Duration.Minutes d = (d : ℚ) / 60000000000 := by
  unfold time.Duration.Minutes
  have h : (Int.tdiv d time.Minute) * time.Minute + Int.tmod d time.Minute = d := by
    rw [mul_comm]; exact Int.tdiv_add_tmod d time.Minute
  have hq : ((Int.tdiv d time.Minute : Int) : ℚ) * 60000000000
      + ((Int.tmod d time.Minute : Int) : ℚ) = (d : ℚ) := by
    have := congrArg (fun z : Int => (z : ℚ)) h
    simpa [time.Minute] using this
  rw [← hq]
  field_simp
  ring

/-- The wrap lands in the signed 64-bit range and differs from its argument by
a multiple of `2^64`. -/
theorem wrapInt64_spec (x : Int) :
    -2 ^ 63 ≤ wrapInt64 x ∧ wrapInt64 x < 2 ^ 63 ∧ (2 ^ 64 : Int) ∣ (wrapInt64 x - x) := by
  unfold wrapInt64
  have h0 : 0 ≤ (x + 2 ^ 63) % 2 ^ 64 := Int.emod_nonneg _ (by norm_num)
  have h1 : (x + 2 ^ 63) % 2 ^ 64 < 2 ^ 64 := Int.emod_lt_of_pos _ (by norm_num)
  refine ⟨by omega, by omega, ?_⟩
  have h2 := Int.emod_add_ediv (x + 2 ^ 63) (2 ^ 64)
  refine ⟨-((x + 2 ^ 63) / 2 ^ 64), ?_⟩
  linarith

/-! ## Lemmas on the rounding of `%.2f` -/

/-- The rounding moves a non-negative number by at most one half. -/
theorem roundHalfEven_close (x : ℚ) (hx : 0 ≤ x) :
    |x - (roundHalfEven x : ℚ)| ≤ 1 / 2 := by
  have hd : (0 : ℚ) < (x.den : ℚ) := by exact_mod_cast x.den_pos
  have hnum : ((x.num.natAbs : ℕ) : ℚ) = (x.num : ℚ) := by
    have h0 : 0 ≤ x.num := Rat.num_nonneg.2 hx
    have h1 : ((x.num.natAbs : ℕ) : ℤ) = x.num := Int.natAbs_of_nonneg h0
    rw [← h1, Int.cast_natCast, Int.natAbs_ofNat]
  have hx' : x = ((x.num.natAbs : ℕ) : ℚ) / (x.den : ℚ) := by
    rw [hnum]; exact (Rat.num_div_den x).symm
  have hdm : ((x.num.natAbs : ℕ) : ℚ)
      = (x.den : ℚ) * ((x.num.natAbs / x.den : ℕ) : ℚ) + ((x.num.natAbs % x.den : ℕ) : ℚ) := by
    exact_mod_cast (Nat.div_add_mod x.num.natAbs x.den).symm
  have hr0 : (0 : ℚ) ≤ ((x.num.natAbs % x.den : ℕ) : ℚ) := Nat.cast_nonneg _
  have hrd : ((x.num.natAbs % x.den : ℕ) : ℚ) < (x.den : ℚ) := by
    exact_mod_cast Nat.mod_lt _ x.den_pos
  have key : x - ((x.num.natAbs / x.den : ℕ) : ℚ)
      = ((x.num.natAbs % x.den : ℕ) : ℚ) / (x.den : ℚ) := by
    rw [eq_div_iff hd.ne.symm]
    have h2 : x * (x.den : ℚ) = ((x.num.natAbs : ℕ) : ℚ) := by
      rw [hnum]; exact Rat.mul_den_eq_num x
    linarith
  have hfrac0 : 0 ≤ ((x.num.natAbs % x.den : ℕ) : ℚ) / (x.den : ℚ) := div_nonneg hr0 hd.le
  have hfrac1 : ((x.num.natAbs % x.den : ℕ) : ℚ) / (x.den : ℚ) < 1 := (div_lt_one hd).2 hrd
  have low : ∀ {R D : ℚ}, 0 < D → 2 * R ≤ D → R / D ≤ 1 / 2 := by
    intro R D hD h
    rw [div_le_iff₀ hD]; linarith
  have high : ∀ {R D : ℚ}, 0 < D → D ≤ 2 * R → 1 / 2 ≤ R / D := by
    intro R D hD h
    rw [le_div_iff₀ hD]; linarith
  unfold roundHalfEven
  simp only []
  split_ifs with h1 h2 h3
  · have h1q : 2 * ((x.num.natAbs % x.den : ℕ) : ℚ) < (x.den : ℚ) := by exact_mod_cast h1
    rw [key, abs_of_nonneg hfrac0]
    exact low hd h1q.le
  · have h2q : (x.den : ℚ) < 2 * ((x.num.natAbs % x.den : ℕ) : ℚ) := by exact_mod_cast h2
    have := high hd h2q.le
    push_cast
    rw [abs_le]
    constructor <;> linarith
  · have h1q : (x.den : ℚ) ≤ 2 * ((x.num.natAbs % x.den : ℕ) : ℚ) := by
      exact_mod_cast Nat.le_of_not_lt h1
    have h2q : 2 * ((x.num.natAbs % x.den : ℕ) : ℚ) ≤ (x.den : ℚ) := by
      exact_mod_cast Nat.le_of_not_lt h2
    rw [key, abs_of_nonneg hfrac0]
    exact low hd h2q
  · have h1q : (x.den : ℚ) ≤ 2 * ((x.num.natAbs % x.den : ℕ) : ℚ) := by
      exact_mod_cast Nat.le_of_not_lt h1
    have := high hd h1q
    push_cast
    rw [abs_le]
    constructor <;> linarith

/-- The number of hundredths printed is within half a hundredth of the
magnitude. -/
theorem hundredths_close (x : ℚ) : |(|x| * 100) - (hundredths x : ℚ)| ≤ 1 / 2 :=
  roundHalfEven_close (|x| * 100) (by positivity)

/-- A number below ten is printed as its single digit. -/
theorem repr_digit (k : Nat) (h : k < 10) :
    Nat.repr k = String.singleton (Nat.digitChar k) := by
  interval_cases k <;> rfl

/-- The verb `%.2f` prints exactly two digits after the point. -/
theorem fmtFixed2_two_decimals (x : ℚ) :
    ∃ a b : Nat, a < 10 ∧ b < 10 ∧ hundredths x = 100 * (hundredths x / 100) + 10 * a + b ∧
      fmtFixed2 x = (if x < 0 then "-" else "") ++ Nat.repr (hundredths x / 100) ++ "." ++
        String.singleton (Nat.digitChar a) ++ String.singleton (Nat.digitChar b) := by
  refine ⟨hundredths x % 100 / 10, hundredths x % 10, by omega, by omega, by omega, ?_⟩
  unfold fmtFixed2
  simp only []
  rw [repr_digit (hundredths x % 100 / 10) (by omega), repr_digit (hundredths x % 10) (by omega)]

/-! ## Calories -/

/-- C1: on the walking record of `main` (height 185, not zero) `Walking.Calories`
divides the squared speed by the height and then by 100, giving
190785553519889/115625000000 (about 1650.03), whereas the stated formula, which
divides the squared speed by the height in metres (height / 100), gives
356764302599/185000000 (about 1928.46): the two differ. -/
theorem walking_calories_sample_differs_from_formula :
    walkingSample.Height ≠ 0 ∧
    walkingSample.Calories = 190785553519889 / 115625000000 ∧
    Walking.CaloriesSpec walkingSample = 356764302599 / 185000000 ∧
    walkingSample.Calories ≠ Walking.CaloriesSpec walkingSample := by
  have hH : walkingSample.Height = 185 := rfl
  have hW : walkingSample.Weight = 85 := rfl
  have hD : walkingSample.Duration = 13500000000000 := by decide
  have hA : walkingSample.Action = 20000 := rfl
  have hL : walkingSample.toTraining.LenStep = 0.65 := rfl
  have hc : walkingSample.Calories = 190785553519889 / 115625000000 := by
    simp only [Walking.Calories, Training.meanSpeed, Training.distance,
      time.Duration.Hours_eq, hH, hW, hD, hA, hL, KmHInMsec, CmInM, MInKm, MinsInHour,
      CaloriesWeightMultiplier, CaloriesSpeedHeightMultiplier]
    norm_num
  have hs : Walking.CaloriesSpec walkingSample = 356764302599 / 185000000 := by
    simp only [Walking.CaloriesSpec, Training.meanSpeed, Training.distance,
      time.Duration.Hours_eq, hH, hW, hD, hA, hL, MInKm]
    norm_num
  refine ⟨by rw [hH]; norm_num, hc, hs, ?_⟩
  rw [hc, hs]
  norm_num

/-- C2: for every running record with non-zero duration, `Running.Calories` is
(18 × mean speed + 1.79) × weight / 1000 × hours × 60, where the mean speed is
Action × LenStep / 1000 / hours and hours is the duration (nanoseconds) divided
by the nanoseconds of an hour. -/
theorem running_calories_formula (r : Running) (h : r.Duration ≠ 0) :
    r.Calories =
      (18 * ((r.Action : ℚ) * r.LenStep / 1000 / ((r.Duration : ℚ) / 3600000000000)) + 1.79)
        * r.Weight / 1000 * ((r.Duration : ℚ) / 3600000000000) * 60 := by
  simp only [Running.Calories, Training.meanSpeed, Training.distance, if_neg h,
    time.Duration.Hours_eq, CaloriesMeanSpeedMultiplier, CaloriesMeanSpeedShift, MInKm,
    MinsInHour]

/-- Witness of C2: the running record of `main` lasts 30 minutes. -/
theorem running_calories_formula_witness :
    runningSample.Duration ≠ 0 ∧
    runningSample.Calories =
      (18 * ((runningSample.Action : ℚ) * runningSample.LenStep / 1000
          / ((runningSample.Duration : ℚ) / 3600000000000)) + 1.79)
        * runningSample.Weight / 1000 * ((runningSample.Duration : ℚ) / 3600000000000) * 60 :=
  ⟨by decide, running_calories_formula runningSample (by decide)⟩

/-- C3: for every swimming record, `Swimming.Calories` is
(mean speed + 1.1) × 2 × weight × hours, where the mean speed is the swimming
one: zero for a zero duration, otherwise the pool distance
(LengthPool × CountPool in machine integers, over 1000) divided by the hours;
Action and LenStep do not occur. -/
theorem swimming_calories_formula (s : Swimming) :
    s.Calories = (s.meanSpeed + 1.1) * 2 * s.Weight * ((s.Duration : ℚ) / 3600000000000) ∧
    s.meanSpeed =
      if s.Duration = 0 then 0
      else ((wrapInt64 (s.LengthPool * s.CountPool) : Int) : ℚ) / 1000
        / ((s.Duration : ℚ) / 3600000000000) := by
  constructor
  · simp only [Swimming.Calories, time.Duration.Hours_eq, SwimmingCaloriesMeanSpeedShift,
      SwimmingCaloriesWeightMultiplier]
  · simp only [Swimming.meanSpeed, Swimming.distance, time.Duration.Hours_eq, MInKm]

/-! ## Mean speed -/

/-- C4: for each variant, `meanSpeed` is zero when the duration is zero and
otherwise the variant's distance divided by the duration in hours; running and
walking use the base distance Action × LenStep / 1000, swimming uses the pool
distance. -/
theorem meanSpeed_all_variants :
    (∀ r : Running, r.toTraining.meanSpeed =
      if r.Duration = 0 then 0
      else r.toTraining.distance / ((r.Duration : ℚ) / 3600000000000)) ∧
    (∀ r : Running, r.toTraining.distance = (r.Action : ℚ) * r.LenStep / 1000) ∧
    (∀ w : Walking, w.toTraining.meanSpeed =
      if w.Duration = 0 then 0
      else w.toTraining.distance / ((w.Duration : ℚ) / 3600000000000)) ∧
    (∀ w : Walking, w.toTraining.distance = (w.Action : ℚ) * w.LenStep / 1000) ∧
    (∀ s : Swimming, s.meanSpeed =
      if s.Duration = 0 then 0
      else s.distance / ((s.Duration : ℚ) / 3600000000000)) ∧
    (∀ s : Swimming, s.distance =
      ((wrapInt64 (s.LengthPool * s.CountPool) : Int) : ℚ) / 1000) := by
  refine ⟨?_, ?_, ?_, ?_, ?_, ?_⟩
  · intro r; simp only [Training.meanSpeed, time.Duration.Hours_eq]
  · intro r; simp only [Training.distance, MInKm]
  · intro w; simp only [Training.meanSpeed, time.Duration.Hours_eq]
  · intro w; simp only [Training.distance, MInKm]
  · intro s; simp only [Swimming.meanSpeed, time.Duration.Hours_eq]
  · intro s; simp only [Swimming.distance, MInKm]

/-! ## Zero duration and zero height -/

/-- The reported mean speed never meets a zero divisor and is the mean speed. -/
theorem Training.meanSpeedChecked_eq (t : Training) :
    t.meanSpeedChecked = some t.meanSpeed := by
  unfold Training.meanSpeedChecked Training.meanSpeed
  by_cases h : t.Duration = 0
  · simp [h]
  · have hh := time.Duration.Hours_ne_zero h
    simp [h, hh, Training.distanceChecked, Training.distance, divChecked, MInKm]

/-- C6: a walking record whose height is zero burns zero calories, whatever its
weight, duration, repetition count and step length are, and the evaluation
meets no division by the height: with every division reported, the result is
still the value 0 and not a zero-divisor report. -/
theorem walking_calories_zero_of_height_zero (w : Walking) (h : w.Height = 0) :
    w.Calories = 0 ∧ w.CaloriesChecked = some 0 := by
  constructor
  · simp [Walking.Calories, h]
  · simp [Walking.CaloriesChecked, Training.meanSpeedChecked_eq, h]

/-- Witness of C6: the walking record of `main` with its height set to zero. -/
theorem walking_calories_zero_of_height_zero_witness :
    Walking.Calories { walkingSample with Height := 0 } = 0 ∧
    Walking.CaloriesChecked { walkingSample with Height := 0 } = some 0 :=
  walking_calories_zero_of_height_zero { walkingSample with Height := 0 } rfl

/-! ## Swimming distance -/

/-- C7: when LengthPool × CountPool fits in a signed 64-bit integer,
`Swimming.distance` is LengthPool × CountPool / 1000. -/
theorem swimming_distance_of_fits (s : Swimming)
    (hlo : -2 ^ 63 ≤ s.LengthPool * s.CountPool)
    (hhi : s.LengthPool * s.CountPool < 2 ^ 63) :
    s.distance = ((s.LengthPool * s.CountPool : Int) : ℚ) / 1000 := by
  simp only [Swimming.distance, wrapInt64_of_fits hlo hhi, MInKm]

/-- Witness of C7: the swimming record of `main`, whose product is 250. -/
theorem swimming_distance_of_fits_witness :
    swimmingSample.distance
      = ((swimmingSample.LengthPool * swimmingSample.CountPool : Int) : ℚ) / 1000 :=
  swimming_distance_of_fits swimmingSample (by decide) (by decide)

/-- C9: two swimming records that agree on duration, weight, pool length and
crossing count have the same distance, mean speed and calories, and the same
distance, speed and calories fields in `TrainingInfo`, whatever their
repetition counts and step lengths are. -/
theorem swimming_independent_of_action_lenStep (s₁ s₂ : Swimming)
    (hD : s₁.Duration = s₂.Duration) (hW : s₁.Weight = s₂.Weight)
    (hL : s₁.LengthPool = s₂.LengthPool) (hC : s₁.CountPool = s₂.CountPool) :
    s₁.distance = s₂.distance ∧ s₁.meanSpeed = s₂.meanSpeed ∧ s₁.Calories = s₂.Calories ∧
    s₁.TrainingInfo.Distance = s₂.TrainingInfo.Distance ∧
    s₁.TrainingInfo.Speed = s₂.TrainingInfo.Speed ∧
    s₁.TrainingInfo.Calories = s₂.TrainingInfo.Calories := by
  have hd : s₁.distance = s₂.distance := by
    simp only [Swimming.distance, hL, hC]
  have hm : s₁.meanSpeed = s₂.meanSpeed := by
    simp only [Swimming.meanSpeed, hd, hD]
  have hc : s₁.Calories = s₂.Calories := by
    simp only [Swimming.Calories, hm, hD, hW]
  exact ⟨hd, hm, hc, hd, hm, hc⟩

/-- Witness of C9: the swimming record of `main` against the same record with
7 strokes of 3.5 m. -/
theorem swimming_independent_of_action_lenStep_witness :
    (swimmingSample.Action ≠ 7 ∧ swimmingSample.LenStep ≠ 3.5) ∧
    swimmingSample.distance
      = Swimming.distance { swimmingSample with Action := 7, LenStep := 3.5 } ∧
    swimmingSample.meanSpeed
      = Swimming.meanSpeed { swimmingSample with Action := 7, LenStep := 3.5 } ∧
    swimmingSample.Calories
      = Swimming.Calories { swimmingSample with Action := 7, LenStep := 3.5 } ∧
    swimmingSample.TrainingInfo.Distance
      = (Swimming.TrainingInfo { swimmingSample with Action := 7, LenStep := 3.5 }).Distance ∧
    swimmingSample.TrainingInfo.Speed
      = (Swimming.TrainingInfo { swimmingSample with Action := 7, LenStep := 3.5 }).Speed ∧
    swimmingSample.TrainingInfo.Calories
      = (Swimming.TrainingInfo { swimmingSample with Action := 7, LenStep := 3.5 }).Calories :=
  ⟨⟨by decide, by
      show SwimmingLenStep ≠ 3.5
      unfold SwimmingLenStep; norm_num⟩,
    swimming_independent_of_action_lenStep swimmingSample
      { swimmingSample with Action := 7, LenStep := 3.5 } rfl rfl rfl rfl⟩

/-! ## Base distance -/

/-- C11: `Running.TrainingInfo` and `Walking.TrainingInfo` delegate to the base
record, so the Calories field of their report is the base `Training.Calories`,
zero, for every record, while `Swimming.TrainingInfo` stores the swimming
calories.  On the running record of `main` the field is 0 although
`Running.Calories` is 605829/2000 (about 302.91); on the walking record of `main`
the field is 0 although `Walking.Calories` is not. -/
theorem trainingInfo_calories_running_walking_zero :
    (∀ r : Running, r.TrainingInfo.Calories = 0) ∧
    (∀ w : Walking, w.TrainingInfo.Calories = 0) ∧
    (∀ s : Swimming, s.TrainingInfo.Calories = s.Calories) ∧
    runningSample.Calories = 605829 / 2000 ∧
    runningSample.TrainingInfo.Calories ≠ runningSample.Calories ∧
    walkingSample.TrainingInfo.Calories ≠ walkingSample.Calories := by
  have hr : runningSample.Calories = 605829 / 2000 := by
    have hD : runningSample.Duration = 1800000000000 := by decide
    have hW : runningSample.Weight = 85 := rfl
    have hA : runningSample.Action = 5000 := rfl
    have hL : runningSample.toTraining.LenStep = 0.65 := rfl
    simp only [Running.Calories, Training.meanSpeed, Training.distance,
      time.Duration.Hours_eq, hD, hW, hA, hL, CaloriesMeanSpeedMultiplier,
      CaloriesMeanSpeedShift, MInKm, MinsInHour]
    norm_num
  have hw : walkingSample.Calories = 190785553519889 / 115625000000 := by
    have hH : walkingSample.Height = 185 := rfl
    have hW : walkingSample.Weight = 85 := rfl
    have hD : walkingSample.Duration = 13500000000000 := by decide
    have hA : walkingSample.Action = 20000 := rfl
    have hL : walkingSample.toTraining.LenStep = 0.65 := rfl
    simp only [Walking.Calories, Training.meanSpeed, Training.distance,
      time.Duration.Hours_eq, hH, hW, hD, hA, hL, KmHInMsec, CmInM, MInKm, MinsInHour,
      CaloriesWeightMultiplier, CaloriesSpeedHeightMultiplier]
    norm_num
  refine ⟨fun _ => rfl, fun _ => rfl, fun _ => rfl, hr, ?_, ?_⟩
  · rw [hr]
    show (0 : ℚ) ≠ 605829 / 2000
    norm_num
  · rw [hw]
    show (0 : ℚ) ≠ 190785553519889 / 115625000000
    norm_num

/-- C12: whatever `%v` prints, for a record of each variant `ReadData` returns
the rendering of the report whose label and duration are the record's, whose
distance and speed are the variant's `distance` and `meanSpeed`, and whose
calories are the variant's own `Calories` (not the base `Training.Calories`). -/
theorem readData_renders_variant_report (fmtV : ℚ → String) :
    (∀ r : Running, ReadData fmtV (.running r) =
      InfoMessage.String fmtV
        { TrainingType := r.TrainingType, Duration := r.Duration,
          Distance := r.toTraining.distance, Speed := r.toTraining.meanSpeed,
          Calories := r.Calories }) ∧
    (∀ w : Walking, ReadData fmtV (.walking w) =
      InfoMessage.String fmtV
        { TrainingType := w.TrainingType, Duration := w.Duration,
          Distance := w.toTraining.distance, Speed := w.toTraining.meanSpeed,
          Calories := w.Calories }) ∧
    (∀ s : Swimming, ReadData fmtV (.swimming s) =
      InfoMessage.String fmtV
        { TrainingType := s.TrainingType, Duration := s.Duration,
          Distance := s.distance, Speed := s.meanSpeed,
          Calories := s.Calories }) :=
  ⟨fun _ => rfl, fun _ => rfl, fun _ => rfl⟩

/-! ## Signs and overflow -/

/-- C16: `Swimming.distance` is the pool product wrapped into the signed 64-bit
range (congruent to the product modulo `2^64`), divided by 1000; for the pool
length `2^32` and `2^31` crossings, both strictly positive machine integers,
the distance is negative and is not the mathematical product over 1000. -/
theorem swimming_distance_wraps :
    (∀ s : Swimming,
      s.distance = ((wrapInt64 (s.LengthPool * s.CountPool) : Int) : ℚ) / 1000) ∧
    (∀ x : Int,
      -2 ^ 63 ≤ wrapInt64 x ∧ wrapInt64 x < 2 ^ 63 ∧ (2 ^ 64 : Int) ∣ (wrapInt64 x - x)) ∧
    (∃ s : Swimming, 0 < s.LengthPool ∧ s.LengthPool < 2 ^ 63 ∧
      0 < s.CountPool ∧ s.CountPool < 2 ^ 63 ∧
      s.distance < 0 ∧
      s.distance ≠ ((s.LengthPool * s.CountPool : Int) : ℚ) / 1000) := by
  refine ⟨fun s => by simp only [Swimming.distance, MInKm], wrapInt64_spec, ?_⟩
  refine ⟨{ swimmingSample with LengthPool := 2 ^ 32, CountPool := 2 ^ 31 },
    by decide, by decide, by decide, by decide, ?_, ?_⟩
  · have hw : wrapInt64 ((2 : Int) ^ 32 * 2 ^ 31) = -9223372036854775808 := by decide
    simp only [Swimming.distance, MInKm, hw]
    norm_num
  · have hw : wrapInt64 ((2 : Int) ^ 32 * 2 ^ 31) = -9223372036854775808 := by decide
    simp only [Swimming.distance, MInKm, hw]
    norm_num

/-! ## Signs in binary64 arithmetic -/

theorem F64.mul_def (x y : F64) : x * y = F64.mul x y := rfl

theorem F64.add_def (x y : F64) : x + y = F64.add x y := rfl

theorem F64.div_def (x y : F64) : x / y = F64.div x y := rfl

/-- Powers of two are positive. -/
theorem F64.twoPow_pos (e : Int) : 0 < F64.twoPow e := by
  unfold F64.twoPow
  split <;> positivity

/-- Rounding to a multiple of a power of two gives a non-negative value. -/
theorem F64.roundAt_nonneg (q : Int) (r : ℚ) : 0 ≤ F64.roundAt q r := by
  unfold F64.roundAt
  exact mul_nonneg (Nat.cast_nonneg _) (F64.twoPow_pos q).le

/-- The `float64` of a non-negative real is not NaN, compares `>= 0` and has a
clear sign bit. -/
theorem F64.round64_of_nonneg {r : ℚ} (h : 0 ≤ r) :
    (F64.round64 r).nonneg = true ∧ (F64.round64 r).signbit = false := by
  have hr : ¬ r < 0 := not_lt.2 h
  have hm : 0 ≤ F64.roundMag |r| := F64.roundAt_nonneg _ _
  unfold F64.round64
  by_cases h0 : r = 0
  · simp [h0, F64.nonneg, F64.signbit]
  · simp only [h0, if_false, hr, decide_False]
    split_ifs with h1 h2
    · simp [F64.nonneg, F64.signbit]
    · simp [F64.zero, F64.nonneg, F64.signbit]
    · simp [F64.nonneg, F64.signbit, hm]

/-- A product of two values that are NaN or `>= 0` is NaN or `>= 0`. -/
theorem F64.mul_nonneg_or_nan {x y : F64} (hx : x = F64.nan ∨ x.nonneg = true)
    (hy : y = F64.nan ∨ y.nonneg = true) :
    x * y = F64.nan ∨ (x * y).nonneg = true := by
  rw [F64.mul_def]
  rcases x with _ | a | _ | p <;> rcases y with _ | b | _ | q <;>
    simp only [F64.mul, F64.isZero, F64.signbit, F64.val, F64.zero] <;>
    (try simp [F64.nonneg] at hx) <;> (try simp [F64.nonneg] at hy) <;>
    (try split_ifs) <;>
    first
      | exact Or.inl rfl
      | exact Or.inr (F64.round64_of_nonneg (mul_nonneg hx hy)).1
      | simp_all [F64.nonneg]

/-- A sum of two values that are NaN or `>= 0` is NaN or `>= 0`. -/
theorem F64.add_nonneg_or_nan {x y : F64} (hx : x = F64.nan ∨ x.nonneg = true)
    (hy : y = F64.nan ∨ y.nonneg = true) :
    x + y = F64.nan ∨ (x + y).nonneg = true := by
  rw [F64.add_def]
  rcases x with _ | a | _ | p <;> rcases y with _ | b | _ | q <;>
    simp only [F64.add, F64.isZero, F64.signbit, F64.val, F64.zero] <;>
    (try simp [F64.nonneg] at hx) <;> (try simp [F64.nonneg] at hy) <;>
    (try split_ifs) <;>
    first
      | exact Or.inl rfl
      | exact Or.inr (F64.round64_of_nonneg (by linarith)).1
      | simp_all [F64.nonneg]

/-- A value that is NaN or `>= 0`, divided by a value that compares `>= 0` with
a clear sign bit, is NaN or `>= 0`. -/
theorem F64.div_nonneg_or_nan {x y : F64} (hx : x = F64.nan ∨ x.nonneg = true)
    (hy : y.nonneg = true ∧ y.signbit = false) :
    x / y = F64.nan ∨ (x / y).nonneg = true := by
  rw [F64.div_def]
  obtain ⟨hy, hs⟩ := hy
  rcases x with _ | a | _ | p <;> rcases y with _ | b | _ | q <;>
    simp only [F64.div, F64.isZero, F64.signbit, F64.val, F64.zero] <;>
    (try simp [F64.nonneg] at hx) <;> (try simp [F64.nonneg] at hy) <;>
    (try simp [F64.signbit] at hs) <;>
    (try split_ifs) <;>
    first
      | exact Or.inl rfl
      | exact Or.inr (F64.round64_of_nonneg (div_nonneg hx hy)).1
      | simp_all [F64.nonneg]

/-- The square `math.Pow(x, 2)` is NaN or `>= 0`. -/
theorem F64.powTwo_nonneg_or_nan (x : F64) :
    x.powTwo = F64.nan ∨ x.powTwo.nonneg = true := by
  rcases x with _ | a | _ | p <;> simp only [F64.powTwo] <;> (try split_ifs) <;>
    first
      | exact Or.inl rfl
      | exact Or.inr (F64.round64_of_nonneg (F64.roundAt_nonneg _ _)).1
      | simp [F64.nonneg]

/-- A sum of two values that compare `>= 0` with clear sign bits is such a
value. -/
theorem F64.add_signClear {x y : F64} (hx : x.nonneg = true ∧ x.signbit = false)
    (hy : y.nonneg = true ∧ y.signbit = false) :
    (x + y).nonneg = true ∧ (x + y).signbit = false := by
  rw [F64.add_def]
  obtain ⟨hx, hxs⟩ := hx
  obtain ⟨hy, hys⟩ := hy
  rcases x with _ | a | _ | p <;> rcases y with _ | b | _ | q <;>
    simp only [F64.add, F64.isZero, F64.signbit, F64.val, F64.zero] <;>
    (try simp [F64.nonneg] at hx) <;> (try simp [F64.nonneg] at hy) <;>
    (try simp [F64.signbit] at hxs) <;> (try simp [F64.signbit] at hys) <;>
    (try split_ifs) <;>
    first
      | exact F64.round64_of_nonneg (by linarith)
      | (simp_all [F64.nonneg, F64.signbit]; done)
      | (simp_all [F64.nonneg, F64.signbit]; rename_i h; linarith [h.1])

/-- A value that compares `>= 0` with a clear sign bit, divided by a positive
finite value, is such a value. -/
theorem F64.div_signClear {x : F64} {c : ℚ} (hx : x.nonneg = true ∧ x.signbit = false)
    (hc : 0 < c) :
    (x / F64.fin c).nonneg = true ∧ (x / F64.fin c).signbit = false := by
  rw [F64.div_def]
  obtain ⟨hx, hxs⟩ := hx
  have hc0 : c ≠ 0 := hc.ne.symm
  have hcn : ¬ c < 0 := not_lt.2 hc.le
  rcases x with _ | a | _ | p <;>
    simp only [F64.div, F64.isZero, F64.signbit, F64.val, F64.zero] <;>
    (try simp [F64.nonneg] at hx) <;>
    (try simp [F64.signbit] at hxs) <;>
    (try split_ifs) <;>
    first
      | exact F64.round64_of_nonneg (div_nonneg hx hc.le)
      | (simp_all [F64.nonneg, F64.signbit]; done)
      | (simp_all [F64.nonneg, F64.signbit]; linarith)

/-- The `float64` of a non-negative constant compares `>= 0` with a clear sign
bit. -/
theorem F64.lit_signClear {c : ℚ} (h : 0 ≤ c) :
    (F64.lit c).nonneg = true ∧ (F64.lit c).signbit = false :=
  F64.round64_of_nonneg h

/-- The `float64` of a non-negative integer compares `>= 0` with a clear sign
bit. -/
theorem F64.ofInt_signClear {n : Int} (h : 0 ≤ n) :
    (F64.ofInt n).nonneg = true ∧ (F64.ofInt n).signbit = false :=
  F64.round64_of_nonneg (by exact_mod_cast h)

/-- The hours of a non-negative duration compare `>= 0` with a clear sign bit. -/
theorem IEEE.Duration.Hours_signClear {d : time.Duration} (h : 0 ≤ d) :
    (IEEE.Duration.Hours d).nonneg = true ∧ (IEEE.Duration.Hours d).signbit = false := by
  unfold IEEE.Duration.Hours
  have hc : F64.lit 3600000000000 = F64.fin 3600000000000 := by decide!
  rw [hc]
  exact F64.add_signClear (F64.ofInt_signClear (Int.tdiv_nonneg h (by decide)))
    (F64.div_signClear (F64.ofInt_signClear (Int.tmod_nonneg _ h)) (by norm_num))

/-- The base distance is NaN or `>= 0` for inputs that compare `>= 0`. -/
theorem IEEE.Training.distance_nonneg_or_nan (t : IEEE.Training) (hA : 0 ≤ t.Action)
    (hL : t.LenStep.nonneg = true) :
    t.distance = F64.nan ∨ t.distance.nonneg = true :=
  F64.div_nonneg_or_nan
    (F64.mul_nonneg_or_nan (Or.inr (F64.ofInt_signClear hA).1) (Or.inr hL))
    (F64.lit_signClear (by norm_num))

/-- The base mean speed is NaN or `>= 0` for inputs that compare `>= 0`. -/
theorem IEEE.Training.meanSpeed_nonneg_or_nan (t : IEEE.Training) (hA : 0 ≤ t.Action)
    (hL : t.LenStep.nonneg = true) (hD : 0 ≤ t.Duration) :
    t.meanSpeed = F64.nan ∨ t.meanSpeed.nonneg = true := by
  unfold IEEE.Training.meanSpeed
  split
  · exact Or.inr (by decide)
  · exact F64.div_nonneg_or_nan (t.distance_nonneg_or_nan hA hL)
      (IEEE.Duration.Hours_signClear hD)

/-! ## Zero duration in binary64 -/

/-- C5: with a zero duration, `Walking.Calories` at the weight `1e200` and
`Swimming.Calories` at the weight `1e308` return NaN, which is not zero: the
product with the weight overflows to `+Inf` and is then multiplied by the zero
hours.  `Running.Calories`, which tests the duration first, returns `+0` on the
same kind of record and on every record with a zero duration. -/
theorem calories_nan_at_zero_duration :
    IEEE.walkingHeavyIdle.Duration = 0 ∧
    IEEE.walkingHeavyIdle.Calories = F64.nan ∧
    IEEE.swimmingHeavyIdle.Duration = 0 ∧
    IEEE.swimmingHeavyIdle.Calories = F64.nan ∧
    F64.nan.isZero = false ∧
    IEEE.runningHeavyIdle.Calories = F64.fin 0 ∧
    (∀ r : IEEE.Running, r.Duration = 0 → r.Calories = F64.fin 0) := by
  refine ⟨rfl, by decide!, rfl, by decide!, rfl, by decide!, ?_⟩
  intro r h
  simp [IEEE.Running.Calories, h]

/-! ## The swimming sample in binary64 -/

/-- C8, as stated, fails: on the swimming record of `main` the mean speed is
not 1/6 and the calories are not 323. -/
theorem swimming_sample_not_exact :
    IEEE.swimmingSample.meanSpeed ≠ F64.fin (1 / 6) ∧
    IEEE.swimmingSample.Calories ≠ F64.fin 323 := by
  constructor <;> decide!

/-- C8, amended: on the swimming record of `main` the distance is exactly 0.25;
the mean speed is the `float64` quotient 0.25 / 1.5, the `float64` nearest to
1/6, which is 6004799503160661 / 2^55; the calories are the `float64` value of
(mean speed + 1.1) × 2 × 85 × 1.5, which is 323 + 2^-44, printed
323.00000000000006; both are within 10^-13 of 1/6 and 323. -/
theorem swimming_sample_values_binary64 :
    IEEE.swimmingSample.distance = F64.fin 0.25 ∧
    IEEE.swimmingSample.meanSpeed = F64.fin 0.25 / F64.lit 1.5 ∧
    IEEE.swimmingSample.meanSpeed = F64.lit (1 / 6) ∧
    IEEE.swimmingSample.meanSpeed = F64.fin (6004799503160661 / 2 ^ 55) ∧
    IEEE.swimmingSample.Calories =
      (F64.lit (1 / 6) + F64.lit 1.1) * F64.lit 2 * F64.lit 85 * F64.lit 1.5 ∧
    IEEE.swimmingSample.Calories = F64.fin (323 + 1 / 2 ^ 44) ∧
    F64.fmtV IEEE.swimmingSample.Calories = "323.00000000000006" ∧
    |IEEE.swimmingSample.meanSpeed.val - 1 / 6| ≤ 1 / 10 ^ 13 ∧
    |IEEE.swimmingSample.Calories.val - 323| ≤ 1 / 10 ^ 13 := by
  have hd : IEEE.swimmingSample.distance = F64.fin 0.25 := by decide!
  have hm : IEEE.swimmingSample.meanSpeed = F64.fin (6004799503160661 / 2 ^ 55) := by decide!
  have hc : IEEE.swimmingSample.Calories = F64.fin (323 + 1 / 2 ^ 44) := by decide!
  refine ⟨hd, by decide!, by decide!, hm, by decide!, hc, by decide!, ?_, ?_⟩
  · rw [hm]; simp only [F64.val]; rw [abs_le]; constructor <;> norm_num
  · rw [hc]; simp only [F64.val]; rw [abs_le]; constructor <;> norm_num

/-! ## Rendering in binary64 -/

set_option maxRecDepth 100000 in
/-- C14, as stated, fails: a report whose calories are NaN is rendered with
`NaN` in the calories line, not with a number of two decimals. -/
theorem infoMessage_string_nan_calories :
    IEEE.InfoMessage.String IEEE.nanCaloriesInfo =
      "Тип тренировки: Плавание\nДлительность: 90 мин\nДистанция: 0.25 км.\nСр. скорость: 0.17 км/ч\nПотрачено ккал: NaN\n" := by
  decide!

set_option maxRecDepth 100000 in
/-- C14, amended: `String` returns the five-line template filled, in this order,
with the type label, `%v` of the duration in minutes, and `%.2f` of the
distance, the speed and the calories.  `%.2f` prints a finite value by its sign,
the integer part and exactly two decimals of its magnitude rounded to
hundredths (within half a hundredth); it prints NaN and the infinities as
`NaN`, `+Inf` and `-Inf`.  On the report with label "Плавание", 90 minutes,
distance 0.25, speed the `float64` of 1/6 and calories 323, and on the report
that `TrainingInfo` builds from the swimming record of `main`, the fields are
printed "90", "0.25", "0.17" and "323.00". -/
theorem infoMessage_string_template_binary64 :
    (∀ i : IEEE.InfoMessage, IEEE.InfoMessage.String i =
      "Тип тренировки: " ++ (i.TrainingType ++ ("\nДлительность: " ++
        (F64.fmtV (IEEE.Duration.Minutes i.Duration) ++ (" мин\nДистанция: " ++
        (F64.fmtF2 i.Distance ++ (" км.\nСр. скорость: " ++
        (F64.fmtF2 i.Speed ++ (" км/ч\nПотрачено ккал: " ++
        (F64.fmtF2 i.Calories ++ "\n")))))))))) ∧
    (∀ q : ℚ, |(|q| * 100) - (hundredths q : ℚ)| ≤ 1 / 2 ∧
      ∃ a b : Nat, a < 10 ∧ b < 10 ∧
        hundredths q = 100 * (hundredths q / 100) + 10 * a + b ∧
        F64.fmtF2 (F64.fin q) =
          (if q < 0 then "-" else "") ++ Nat.repr (hundredths q / 100) ++ "." ++
            String.singleton (Nat.digitChar a) ++ String.singleton (Nat.digitChar b)) ∧
    F64.fmtF2 F64.nan = "NaN" ∧
    F64.fmtF2 (F64.inf false) = "+Inf" ∧
    F64.fmtF2 (F64.inf true) = "-Inf" ∧
    F64.fmtF2 F64.negZero = "-0.00" ∧
    IEEE.Duration.Minutes IEEE.swimmingSampleInfo.Duration = F64.fin 90 ∧
    F64.fmtV (F64.fin 90) = "90" ∧
    F64.fmtF2 IEEE.swimmingSampleInfo.Distance = "0.25" ∧
    F64.fmtF2 IEEE.swimmingSampleInfo.Speed = "0.17" ∧
    F64.fmtF2 IEEE.swimmingSampleInfo.Calories = "323.00" ∧
    IEEE.InfoMessage.String IEEE.swimmingSampleInfo =
      "Тип тренировки: Плавание\nДлительность: 90 мин\nДистанция: 0.25 км.\nСр. скорость: 0.17 км/ч\nПотрачено ккал: 323.00\n" ∧
    IEEE.InfoMessage.String IEEE.swimmingSample.TrainingInfo =
      "Тип тренировки: Плавание\nДлительность: 90 мин\nДистанция: 0.25 км.\nСр. скорость: 0.17 км/ч\nПотрачено ккал: 323.00\n" := by
  refine ⟨fun _ => rfl, fun q => ⟨hundredths_close q, fmtFixed2_two_decimals q⟩, rfl, rfl, rfl, rfl,
    by decide!, by decide!, by decide!, by decide!, by decide!, by decide!, by decide!⟩

/-! ## Signs of the results in binary64 -/

/-- C15, as stated, fails: the running record with ten steps of `1e308` metres,
30 minutes and the weight 0 has inputs that all compare `>= 0`, and its calories
are NaN, which does not compare `>= 0` (the distance overflows to `+Inf` and is
multiplied by the zero weight); with no step and the step length `+Inf` the
distance and the mean speed are NaN as well. -/
theorem nonneg_inputs_nan_results :
    (0 ≤ IEEE.runningHugeStep.Action ∧ IEEE.runningHugeStep.LenStep.nonneg = true ∧
      0 ≤ IEEE.runningHugeStep.Duration ∧ IEEE.runningHugeStep.Weight.nonneg = true) ∧
    IEEE.runningHugeStep.Calories = F64.nan ∧
    (0 ≤ IEEE.runningInfiniteStep.Action ∧ IEEE.runningInfiniteStep.LenStep.nonneg = true ∧
      0 ≤ IEEE.runningInfiniteStep.Duration ∧ IEEE.runningInfiniteStep.Weight.nonneg = true) ∧
    IEEE.runningInfiniteStep.toTraining.distance = F64.nan ∧
    IEEE.runningInfiniteStep.toTraining.meanSpeed = F64.nan ∧
    F64.nan.nonneg = false := by
  refine ⟨⟨by decide, by decide!, by decide, by decide!⟩, by decide!,
    ⟨by decide, by decide!, by decide, by decide!⟩, by decide!, by decide!, rfl⟩

/-- C15, amended: for a record of any variant whose inputs all compare `>= 0`
(and, for swimming, whose pool product does not overflow), the distance, the
mean speed and the calories are never negative: each is NaN or compares
`>= 0`; the swimming distance always compares `>= 0`. -/
theorem results_nonneg_or_nan :
    (∀ r : IEEE.Running, 0 ≤ r.Action → r.LenStep.nonneg = true → 0 ≤ r.Duration →
      r.Weight.nonneg = true →
      (r.toTraining.distance = F64.nan ∨ r.toTraining.distance.nonneg = true) ∧
      (r.toTraining.meanSpeed = F64.nan ∨ r.toTraining.meanSpeed.nonneg = true) ∧
      (r.Calories = F64.nan ∨ r.Calories.nonneg = true)) ∧
    (∀ w : IEEE.Walking, 0 ≤ w.Action → w.LenStep.nonneg = true → 0 ≤ w.Duration →
      w.Weight.nonneg = true → w.Height.nonneg = true →
      (w.toTraining.distance = F64.nan ∨ w.toTraining.distance.nonneg = true) ∧
      (w.toTraining.meanSpeed = F64.nan ∨ w.toTraining.meanSpeed.nonneg = true) ∧
      (w.Calories = F64.nan ∨ w.Calories.nonneg = true)) ∧
    (∀ s : IEEE.Swimming, 0 ≤ s.Action → s.LenStep.nonneg = true → 0 ≤ s.Duration →
      s.Weight.nonneg = true → 0 ≤ s.LengthPool → 0 ≤ s.CountPool →
      s.LengthPool * s.CountPool < 2 ^ 63 →
      s.distance.nonneg = true ∧
      (s.meanSpeed = F64.nan ∨ s.meanSpeed.nonneg = true) ∧
      (s.Calories = F64.nan ∨ s.Calories.nonneg = true)) := by
  have hlit : ∀ {c : ℚ}, 0 ≤ c → (F64.lit c = F64.nan ∨ (F64.lit c).nonneg = true) :=
    fun h => Or.inr (F64.lit_signClear h).1
  refine ⟨?_, ?_, ?_⟩
  · intro r hA hL hD hW
    have hd := r.toTraining.distance_nonneg_or_nan hA hL
    have hm := r.toTraining.meanSpeed_nonneg_or_nan hA hL hD
    have hh := IEEE.Duration.Hours_signClear hD
    refine ⟨hd, hm, ?_⟩
    unfold IEEE.Running.Calories
    simp only []
    split
    · exact Or.inr (by decide)
    · exact F64.mul_nonneg_or_nan
        (F64.mul_nonneg_or_nan
          (F64.div_nonneg_or_nan
            (F64.mul_nonneg_or_nan
              (F64.add_nonneg_or_nan
                (F64.mul_nonneg_or_nan (hlit (by norm_num)) hm) (hlit (by norm_num)))
              (Or.inr hW))
            (F64.lit_signClear (by norm_num)))
          (Or.inr hh.1))
        (hlit (by norm_num))
  · intro w hA hL hD hW hH
    have hd := w.toTraining.distance_nonneg_or_nan hA hL
    have hm := w.toTraining.meanSpeed_nonneg_or_nan hA hL hD
    have hh := IEEE.Duration.Hours_signClear hD
    refine ⟨hd, hm, ?_⟩
    unfold IEEE.Walking.Calories
    simp only []
    split
    · exact Or.inr (by decide)
    · rename_i hz
      have hHs : w.Height.nonneg = true ∧ w.Height.signbit = false := by
        refine ⟨hH, ?_⟩
        rcases hw : w.Height with _ | a | _ | p
        · rfl
        · rw [hw] at hH; simpa [F64.nonneg, F64.signbit] using hH
        · rw [hw] at hz; simp [F64.isZero] at hz
        · rw [hw] at hH; simpa [F64.nonneg, F64.signbit] using hH
      exact F64.mul_nonneg_or_nan
        (F64.mul_nonneg_or_nan
          (F64.mul_nonneg_or_nan
            (F64.mul_nonneg_or_nan
              (F64.add_nonneg_or_nan
                (F64.mul_nonneg_or_nan (hlit (by norm_num)) (Or.inr hW))
                (F64.div_nonneg_or_nan
                  (F64.div_nonneg_or_nan (F64.powTwo_nonneg_or_nan _) hHs)
                  (F64.lit_signClear (by norm_num))))
              (hlit (by norm_num)))
            (Or.inr hW))
          (Or.inr hh.1))
        (hlit (by norm_num))
  · intro s _ _ hD hW hL hC hfit
    have hprod : 0 ≤ s.LengthPool * s.CountPool := mul_nonneg hL hC
    have hwrap : wrapInt64 (s.LengthPool * s.CountPool) = s.LengthPool * s.CountPool :=
      wrapInt64_of_fits (by linarith) hfit
    have hh := IEEE.Duration.Hours_signClear hD
    have hk : F64.lit 1000 = F64.fin 1000 := by decide!
    have hd : s.distance.nonneg = true ∧ s.distance.signbit = false := by
      unfold IEEE.Swimming.distance IEEE.MInKm
      rw [hwrap, hk]
      exact F64.div_signClear (F64.ofInt_signClear hprod) (by norm_num)
    have hm : s.meanSpeed = F64.nan ∨ s.meanSpeed.nonneg = true := by
      unfold IEEE.Swimming.meanSpeed
      split
      · exact Or.inr (by decide)
      · exact F64.div_nonneg_or_nan (Or.inr hd.1) hh
    refine ⟨hd.1, hm, ?_⟩
    unfold IEEE.Swimming.Calories
    exact F64.mul_nonneg_or_nan
      (F64.mul_nonneg_or_nan
        (F64.mul_nonneg_or_nan
          (F64.add_nonneg_or_nan hm (hlit (by norm_num)))
          (hlit (by norm_num)))
        (Or.inr hW))
      (Or.inr hh.1)

/-- Witness of C15, amended: the three records of `main`. -/
theorem results_nonneg_or_nan_witness :
    ((IEEE.runningSample.toTraining.distance = F64.nan ∨
        IEEE.runningSample.toTraining.distance.nonneg = true) ∧
      (IEEE.runningSample.toTraining.meanSpeed = F64.nan ∨
        IEEE.runningSample.toTraining.meanSpeed.nonneg = true) ∧
      (IEEE.runningSample.Calories = F64.nan ∨ IEEE.runningSample.Calories.nonneg = true)) ∧
    ((IEEE.walkingSample.toTraining.distance = F64.nan ∨
        IEEE.walkingSample.toTraining.distance.nonneg = true) ∧
      (IEEE.walkingSample.toTraining.meanSpeed = F64.nan ∨
        IEEE.walkingSample.toTraining.meanSpeed.nonneg = true) ∧
      (IEEE.walkingSample.Calories = F64.nan ∨ IEEE.walkingSample.Calories.nonneg = true)) ∧
    (IEEE.swimmingSample.distance.nonneg = true ∧
      (IEEE.swimmingSample.meanSpeed = F64.nan ∨ IEEE.swimmingSample.meanSpeed.nonneg = true) ∧
      (IEEE.swimmingSample.Calories = F64.nan ∨ IEEE.swimmingSample.Calories.nonneg = true)) :=
  ⟨results_nonneg_or_nan.1 IEEE.runningSample (by decide) (by decide!) (by decide) (by decide!),
   results_nonneg_or_nan.2.1 IEEE.walkingSample (by decide) (by decide!) (by decide)
     (by decide!) (by decide!),
   results_nonneg_or_nan.2.2 IEEE.swimmingSample (by decide) (by decide!) (by decide)
     (by decide!) (by decide) (by decide) (by decide)⟩

end Fitness
